import Mathlib

/-!
Shallow embedding of `vtkPhantomRegistrationAlgo` (PlusLib, TrusCalibration),
the landmark-based phantom-registration core: the `Register`, `ComputeError`
and `ReadConfiguration` operations of
`src/PlusLib/src/TrusCalibration/vtkPhantomRegistrationAlgo.cxx`.

Machine doubles are modelled as real numbers; `vtkPoints` as `List Point3`;
the VTK 4x4 homogeneous matrix as `Matrix (Fin 4) (Fin 4) ℝ`.  The numerical
solve that `Register` delegates to (`itk::LandmarkBasedTransformInitializer`
with `itk::Similarity3DTransform`) is an external library whose code is not
part of this repository; where a claim depends on it, it is modelled from the
specification's own words (see `IsOptimalSimilarity`, `itkSolve` and
`umeyamaRotation` below, each marked as modelled from the spec).
-/

open Classical

/-- A 3D point (three real coordinates), as stored in a `vtkPoints` slot. -/
abbrev Point3 : Type := Fin 3 → ℝ

/-- Status type of the Plus toolkit: every operation of the source returns
`PLUS_SUCCESS` or `PLUS_FAIL`; no richer error taxonomy exists in the code. -/
inductive PlusStatus where
  | success : PlusStatus
  | fail : PlusStatus
  deriving DecidableEq

/-- State of a `vtkPhantomRegistrationAlgo` object: the registration error,
the published phantom-to-reference matrix, the two landmark lists and the
defined-landmark names (fields of the C++ class). -/
structure PhantomRegistrationAlgo where
  registrationError : ℝ
  phantomToReferenceTransformMatrix : Matrix (Fin 4) (Fin 4) ℝ
  definedLandmarks : List Point3
  recordedLandmarks : List Point3
  definedLandmarkNames : List String

/-- Dot product of two 3-vectors (componentwise, as `vtkMath` computes it). -/
noncomputable def dot3 (x y : Point3) : ℝ :=
  x 0 * y 0 + x 1 * y 1 + x 2 * y 2

/-- Squared Euclidean distance between two 3D points:
`vtkMath::Distance2BetweenPoints` (sum of squared coordinate differences). -/
noncomputable def distance2BetweenPoints (p q : Point3) : ℝ :=
  (p 0 - q 0) ^ 2 + (p 1 - q 1) ^ 2 + (p 2 - q 2) ^ 2

/-- Euclidean distance: `sqrt(vtkMath::Distance2BetweenPoints(p, q))`,
exactly as `ComputeError` forms each per-landmark residual. -/
noncomputable def dist3 (p q : Point3) : ℝ :=
  Real.sqrt (distance2BetweenPoints p q)

/-- A 3D point extended to a homogeneous 4-vector with fourth coordinate `1`,
as `ComputeError` builds `landmarkPoint[4] = {x, y, z, 1.0}`. -/
noncomputable def homogeneize (p : Point3) : Fin 4 → ℝ :=
  ![p 0, p 1, p 2, 1]

/-- First three components of `M * (p, 1)`: the composition of
`vtkMatrix4x4::MultiplyDoublePoint` with the 3-component read that
`vtkMath::Distance2BetweenPoints` performs on its result. -/
noncomputable def applyTransform (M : Matrix (Fin 4) (Fin 4) ℝ) (p : Point3) : Point3 :=
  ![Finset.univ.sum fun k : Fin 4 => M 0 k * homogeneize p k,
    Finset.univ.sum fun k : Fin 4 => M 1 k * homogeneize p k,
    Finset.univ.sum fun k : Fin 4 => M 2 k * homogeneize p k]

/-- Body of `vtkPhantomRegistrationAlgo::ComputeError` (lines 209-234): sum the
Euclidean distances between the transformed defined landmark and the recorded
landmark over indices `0 .. count(recorded)-1`, divide by `count(recorded)`,
and return `PLUS_SUCCESS` unconditionally.  The defined landmark at index `i`
is read without any bounds check (`GetPoint(i)`); the out-of-range case is
modelled by `List.getD`'s default.  There is no guard for an empty recorded
list: the division is performed regardless (`0.0 / 0` is NaN in the C++
doubles; real division by zero yields `0` in this model). -/
noncomputable def computeErrorRun (M : Matrix (Fin 4) (Fin 4) ℝ)
    (definedPts recordedPts : List Point3) : ℝ × PlusStatus :=
  let sumDistance : ℝ :=
    Finset.sum (Finset.range recordedPts.length) fun i =>
      dist3 (applyTransform M (definedPts.getD i 0)) (recordedPts.getD i 0)
  (sumDistance / recordedPts.length, PlusStatus.success)

/-- The mean-distance value that `ComputeError` stores in
`this->RegistrationError`. -/
noncomputable def computeErrorValue (M : Matrix (Fin 4) (Fin 4) ℝ)
    (definedPts recordedPts : List Point3) : ℝ :=
  (computeErrorRun M definedPts recordedPts).1

/-- A proper rotation: an orthonormal 3x3 matrix of determinant `+1`
(the spec's "rotation (3x3 orthonormal matrix, determinant +1)"). -/
def properRotation (R : Matrix (Fin 3) (Fin 3) ℝ) : Prop :=
  R.transpose * R = 1 ∧ R.det = 1

/-- Least-squares objective of the similarity registration problem over the
correspondence lists: `Σ_i ‖s·R·d_i + t − r_i‖²`, summed over the indices
`0 .. count(recorded)-1` that `Register` feeds to the solver. -/
noncomputable def similarityObjective (definedPts recordedPts : List Point3)
    (R : Matrix (Fin 3) (Fin 3) ℝ) (s : ℝ) (t : Point3) : ℝ :=
  Finset.sum (Finset.range recordedPts.length) fun i =>
    dot3 (s • R.mulVec (definedPts.getD i 0) + t - recordedPts.getD i 0)
      (s • R.mulVec (definedPts.getD i 0) + t - recordedPts.getD i 0)

/-- Modelled from the spec: the output contract of the external
`itk::LandmarkBasedTransformInitializer` / `itk::Similarity3DTransform` solve,
whose code is not under `src/`.  Per the spec, the solve is "the closed-form
least-squares solution minimizing `Σ_i ||s*R*d_i + t - r_i||²` over all proper
rotations, positive scales, and translations". -/
def IsOptimalSimilarity (definedPts recordedPts : List Point3)
    (R : Matrix (Fin 3) (Fin 3) ℝ) (s : ℝ) (t : Point3) : Prop :=
  properRotation R ∧ 0 < s ∧
    ∀ R' s' t', properRotation R' → 0 < s' →
      similarityObjective definedPts recordedPts R s t ≤
        similarityObjective definedPts recordedPts R' s' t'

/-- Modelled from the spec: the external ITK landmark solve, returning some
least-squares-optimal proper similarity `(R, s, t)` when one exists (the spec:
"the result is unique except in the excluded degenerate cases"); on inputs
with no optimum it is left as the identity similarity, matching the
`transform->SetIdentity()` initialisation in `Register`. -/
noncomputable def itkSolve (definedPts recordedPts : List Point3) :
    Matrix (Fin 3) (Fin 3) ℝ × ℝ × Point3 :=
  if h : ∃ p : Matrix (Fin 3) (Fin 3) ℝ × ℝ × Point3,
      IsOptimalSimilarity definedPts recordedPts p.1 p.2.1 p.2.2 then
    h.choose
  else
    (1, 1, 0)

/-- Assembly of the homogeneous result matrix in `Register` (lines 92-107):
the upper-left 3x3 block receives `transform->GetMatrix()` (which is
`scale * rotation` for `itk::Similarity3DTransform`), rows 0-2 of the last
column receive `transform->GetOffset()` (the translation, since the transform
center is the origin), and the last row keeps its `Identity()` values. -/
noncomputable def assembleTransform (R : Matrix (Fin 3) (Fin 3) ℝ) (s : ℝ)
    (t : Point3) : Matrix (Fin 4) (Fin 4) ℝ :=
  Matrix.of
    ![![s * R 0 0, s * R 0 1, s * R 0 2, t 0],
      ![s * R 1 0, s * R 1 1, s * R 1 2, t 1],
      ![s * R 2 0, s * R 2 1, s * R 2 2, t 2],
      ![0, 0, 0, 1]]

/-- Body of `vtkPhantomRegistrationAlgo::Register` (lines 53-123): build the
fixed/moving point vectors by reading both landmark lists at the indices
`0 .. count(recorded)-1` (no count comparison, no minimum-count check, no
collinearity check is performed), run the external solve, store the assembled
matrix in `PhantomToReferenceTransformMatrix`, then call `ComputeError`
(which stores `RegistrationError`); return `PLUS_FAIL` only if `ComputeError`
did not return `PLUS_SUCCESS`. -/
noncomputable def register (st : PhantomRegistrationAlgo) :
    PhantomRegistrationAlgo × PlusStatus :=
  let fixedPoints : List Point3 :=
    (List.range st.recordedLandmarks.length).map fun i =>
      st.definedLandmarks.getD i 0
  let movingPoints : List Point3 :=
    (List.range st.recordedLandmarks.length).map fun i =>
      st.recordedLandmarks.getD i 0
  let solved := itkSolve fixedPoints movingPoints
  let M := assembleTransform solved.1 solved.2.1 solved.2.2
  let st1 := { st with phantomToReferenceTransformMatrix := M }
  let ce := computeErrorRun M st1.definedLandmarks st1.recordedLandmarks
  let st2 := { st1 with registrationError := ce.1 }
  if ce.2 ≠ PlusStatus.success then (st2, PlusStatus.fail)
  else (st2, PlusStatus.success)

/-- The `fixedPoints` vector built by `Register` (lines 62-74): the defined
landmarks read at indices `0 .. count(recorded)-1`. -/
noncomputable def registerFixedPoints (st : PhantomRegistrationAlgo) : List Point3 :=
  (List.range st.recordedLandmarks.length).map fun i =>
    st.definedLandmarks.getD i 0

/-- The `movingPoints` vector built by `Register` (lines 62-74): the recorded
landmarks read at indices `0 .. count(recorded)-1`. -/
noncomputable def registerMovingPoints (st : PhantomRegistrationAlgo) : List Point3 :=
  (List.range st.recordedLandmarks.length).map fun i =>
    st.recordedLandmarks.getD i 0

/-- The matrix `Register` stores in `PhantomToReferenceTransformMatrix`. -/
noncomputable def registerMatrix (st : PhantomRegistrationAlgo) :
    Matrix (Fin 4) (Fin 4) ℝ :=
  assembleTransform (itkSolve (registerFixedPoints st) (registerMovingPoints st)).1
    (itkSolve (registerFixedPoints st) (registerMovingPoints st)).2.1
    (itkSolve (registerFixedPoints st) (registerMovingPoints st)).2.2

/-- Cross product of two 3-vectors (used to state non-collinearity of the
defined landmarks: `d1 − d0` and `d2 − d0` have nonzero cross product). -/
noncomputable def cross3 (u v : Point3) : Point3 :=
  ![u 1 * v 2 - u 2 * v 1, u 2 * v 0 - u 0 * v 2, u 0 * v 1 - u 1 * v 0]

/-- The defined landmarks are all collinear: for every three in-range indices
into the defined list, the two difference vectors from the first point to the
other two have vanishing cross product.  Only in-range indices take part, so
this is ordinary collinearity of the stored points (lines not through the
origin included), unaffected by `getD`'s out-of-range default. -/
def definedCollinear (st : PhantomRegistrationAlgo) : Prop :=
  ∀ i j k : ℕ, i < st.definedLandmarks.length → j < st.definedLandmarks.length →
    k < st.definedLandmarks.length →
    cross3 (st.definedLandmarks.getD j 0 - st.definedLandmarks.getD i 0)
      (st.definedLandmarks.getD k 0 - st.definedLandmarks.getD i 0) = 0

/-- Negation of the third column of a 3x3 matrix.  With singular values in
the conventional descending order, the third column is the one of the
smallest singular value. -/
noncomputable def flipThirdColumn (U : Matrix (Fin 3) (Fin 3) ℝ) :
    Matrix (Fin 3) (Fin 3) ℝ :=
  Matrix.of fun i j => if j = 2 then -(U i j) else U i j

/-- Modelled from the spec: step 4 of the absolute-orientation algorithm that
the external ITK solve implements ("Candidate rotation `R = V Uᵀ`.  If
`det(R) < 0` ... flip the sign of the column of `U` corresponding to the
smallest singular value and recompute `R`"), as a function of the SVD factors
`U`, `V` produced by the external numerical routine. -/
noncomputable def umeyamaRotation (U V : Matrix (Fin 3) (Fin 3) ℝ) :
    Matrix (Fin 3) (Fin 3) ℝ :=
  if (V * U.transpose).det < 0 then V * (flipThirdColumn U).transpose
  else V * U.transpose

/-- One nested element of the `<Landmarks>` configuration element, as
`ReadConfiguration` classifies it: a null or wrongly-named element, an
element whose `Position` attribute does not parse as 3 doubles, or a valid
landmark with a name and a position. -/
inductive LandmarkEntry where
  | invalidElement : LandmarkEntry
  | invalidPosition : String → LandmarkEntry
  | valid : String → Point3 → LandmarkEntry

/-- Whether an entry survives both `continue` guards of the read loop. -/
def LandmarkEntry.isValid : LandmarkEntry → Bool
  | .valid _ _ => true
  | _ => false

/-- Semantics of `vtkPoints::InsertPoint(id, x)`: write at slot `id`,
growing the point array to `id + 1` slots when `id` is past the end (the
skipped-over slots are uninitialised memory in VTK; the model pads them
with the zero point, which no theorem below depends on). -/
def insertPoint (pts : List Point3) (i : ℕ) (p : Point3) : List Point3 :=
  if i < pts.length then pts.set i p
  else (pts ++ List.replicate (i - pts.length) 0) ++ [p]

/-- The landmark-reading loop of `ReadConfiguration` (lines 168-190): walk
the nested elements with their 0-based index `i`, `continue` past malformed
entries with only a warning, and `InsertPoint(i, position)` for valid ones. -/
def processLandmarksAux : ℕ → List LandmarkEntry → List Point3 → List Point3
  | _, [], pts => pts
  | i, .valid _ p :: rest, pts => processLandmarksAux (i + 1) rest (insertPoint pts i p)
  | i, .invalidElement :: rest, pts => processLandmarksAux (i + 1) rest pts
  | i, .invalidPosition _ :: rest, pts => processLandmarksAux (i + 1) rest pts

/-- The `DefinedLandmarks` point set produced by the read loop, starting from
the `Reset()` (empty) state. -/
def processLandmarks (entries : List LandmarkEntry) : List Point3 :=
  processLandmarksAux 0 entries []

/-- Number of entries that pass both validity guards. -/
def validEntryCount (entries : List LandmarkEntry) : ℕ :=
  (entries.filter fun e => e.isValid).length

/-- Outcome of the landmark-collection part of `ReadConfiguration` (lines
168-204), given the nested elements of a present `<Landmarks>` element:
malformed entries only warn, a count mismatch only warns (line 192-195), and
the function fails only when `DefinedLandmarks` ends up with zero points
(lines 198-202). -/
def readLandmarksStatus (entries : List LandmarkEntry) : PlusStatus :=
  if (processLandmarks entries).length = 0 then PlusStatus.fail
  else PlusStatus.success

/-- Indices at which `Register` reads `DefinedLandmarks` (its loop at lines
62-74 runs `i = 0 .. count(recorded)-1` and calls
`DefinedLandmarks->GetPoint(i)` with no bounds check). -/
def registerReadIndices (st : PhantomRegistrationAlgo) : List ℕ :=
  List.range st.recordedLandmarks.length

/-- Indices at which `ComputeError` reads `DefinedLandmarks` (its loop at
lines 215-227 runs `i = 0 .. count(recorded)-1` likewise). -/
def computeErrorReadIndices (st : PhantomRegistrationAlgo) : List ℕ :=
  List.range st.recordedLandmarks.length

/-- Every read of `DefinedLandmarks` performed by `Register` and
`ComputeError` is within the bounds of the defined-landmark list. -/
def definedReadsInBounds (st : PhantomRegistrationAlgo) : Prop :=
  (∀ i ∈ registerReadIndices st, i < st.definedLandmarks.length) ∧
    ∀ i ∈ computeErrorReadIndices st, i < st.definedLandmarks.length

/-- A concrete algorithm state whose three defined landmarks are collinear
(all on the line `y = 1, z = 0`, which does not pass through the origin),
with recorded landmarks matching. -/
noncomputable def collinearState : PhantomRegistrationAlgo :=
  PhantomRegistrationAlgo.mk (-1) 1
    [![0, 1, 0], ![1, 1, 0], ![2, 1, 0]]
    [![0, 1, 0], ![1, 1, 0], ![2, 1, 0]] []

/-- A point read as an element of Mathlib's Euclidean space on `Fin 3`, so
that "Euclidean distance" below is the library's canonical notion rather
than a restatement of the code's formula. -/
noncomputable def pointToEuclidean (p : Point3) : EuclideanSpace ℝ (Fin 3) :=
  (WithLp.equiv 2 (Fin 3 → ℝ)).symm p

/-- The error value as the spec words it: the arithmetic mean, over all `n`
correspondences, of the Euclidean distances between the transform applied to
`defined[i]` (as a homogeneous point with fourth coordinate `1`) and
`recorded[i]`. -/
noncomputable def meanEuclideanError (M : Matrix (Fin 4) (Fin 4) ℝ)
    (definedPts recordedPts : List Point3) : ℝ :=
  (Finset.sum (Finset.range recordedPts.length) fun i =>
    dist (pointToEuclidean (applyTransform M (definedPts.getD i 0)))
      (pointToEuclidean (recordedPts.getD i 0))) / recordedPts.length

/-- The root-mean-square of the same per-point Euclidean distances — the
aggregation the spec insists `ComputeError` does NOT use. -/
noncomputable def rmsEuclideanError (M : Matrix (Fin 4) (Fin 4) ℝ)
    (definedPts recordedPts : List Point3) : ℝ :=
  Real.sqrt ((Finset.sum (Finset.range recordedPts.length) fun i =>
    dist (pointToEuclidean (applyTransform M (definedPts.getD i 0)))
      (pointToEuclidean (recordedPts.getD i 0)) ^ 2) / recordedPts.length)

theorem dot3_self_nonneg (v : Point3) : 0 ≤ dot3 v v := by
  have h : dot3 v v = v 0 * v 0 + v 1 * v 1 + v 2 * v 2 := rfl
  rw [h]
  have h0 := mul_self_nonneg (v 0)
  have h1 := mul_self_nonneg (v 1)
  have h2 := mul_self_nonneg (v 2)
  linarith

theorem dot3_self_eq_zero {v : Point3} (h : dot3 v v = 0) : v = 0 := by
  have h' : v 0 * v 0 + v 1 * v 1 + v 2 * v 2 = 0 := h
  have h0 := mul_self_nonneg (v 0)
  have h1 := mul_self_nonneg (v 1)
  have h2 := mul_self_nonneg (v 2)
  funext i
  match i with
  | 0 => exact mul_self_eq_zero.mp (le_antisymm (by linarith) h0)
  | 1 => exact mul_self_eq_zero.mp (le_antisymm (by linarith) h1)
  | 2 => exact mul_self_eq_zero.mp (le_antisymm (by linarith) h2)

theorem dot3_smul_smul (a b : ℝ) (x y : Point3) :
    dot3 (a • x) (b • y) = a * b * dot3 x y := by
  simp only [dot3, Pi.smul_apply, smul_eq_mul]
  ring

theorem rotation_dot3 (R : Matrix (Fin 3) (Fin 3) ℝ) (hR : R.transpose * R = 1)
    (x y : Point3) : dot3 (R.mulVec x) (R.mulVec y) = dot3 x y := by
  have h : ∀ a b : Fin 3, R 0 a * R 0 b + R 1 a * R 1 b + R 2 a * R 2 b
      = if a = b then 1 else 0 := by
    intro a b
    have hab := congrFun (congrFun hR a) b
    simpa [Matrix.mul_apply, Matrix.transpose_apply, Fin.sum_univ_three,
      Matrix.one_apply] using hab
  have h00 : R 0 0 * R 0 0 + R 1 0 * R 1 0 + R 2 0 * R 2 0 = 1 := by simpa using h 0 0
  have h01 : R 0 0 * R 0 1 + R 1 0 * R 1 1 + R 2 0 * R 2 1 = 0 := by simpa using h 0 1
  have h02 : R 0 0 * R 0 2 + R 1 0 * R 1 2 + R 2 0 * R 2 2 = 0 := by simpa using h 0 2
  have h10 : R 0 1 * R 0 0 + R 1 1 * R 1 0 + R 2 1 * R 2 0 = 0 := by simpa using h 1 0
  have h11 : R 0 1 * R 0 1 + R 1 1 * R 1 1 + R 2 1 * R 2 1 = 1 := by simpa using h 1 1
  have h12 : R 0 1 * R 0 2 + R 1 1 * R 1 2 + R 2 1 * R 2 2 = 0 := by simpa using h 1 2
  have h20 : R 0 2 * R 0 0 + R 1 2 * R 1 0 + R 2 2 * R 2 0 = 0 := by simpa using h 2 0
  have h21 : R 0 2 * R 0 1 + R 1 2 * R 1 1 + R 2 2 * R 2 1 = 0 := by simpa using h 2 1
  have h22 : R 0 2 * R 0 2 + R 1 2 * R 1 2 + R 2 2 * R 2 2 = 1 := by simpa using h 2 2
  simp only [dot3, Matrix.mulVec, Matrix.dotProduct, Fin.sum_univ_three]
  linear_combination (x 0 * y 0) * h00 + (x 0 * y 1) * h01 + (x 0 * y 2) * h02 +
    (x 1 * y 0) * h10 + (x 1 * y 1) * h11 + (x 1 * y 2) * h12 +
    (x 2 * y 0) * h20 + (x 2 * y 1) * h21 + (x 2 * y 2) * h22

theorem cross3_transpose_mulVec (A : Matrix (Fin 3) (Fin 3) ℝ) (u v : Point3) :
    A.transpose.mulVec (cross3 (A.mulVec u) (A.mulVec v)) = A.det • cross3 u v := by
  have h : ∀ i : Fin 3, A.transpose.mulVec (cross3 (A.mulVec u) (A.mulVec v)) i
      = (A.det • cross3 u v) i := by
    intro i
    match i with
    | 0 | 1 | 2 =>
      simp only [cross3, Matrix.mulVec, Matrix.dotProduct, Matrix.transpose_apply,
        Fin.sum_univ_three, Matrix.det_fin_three, Pi.smul_apply, smul_eq_mul,
        Matrix.cons_val_zero, Matrix.cons_val_one, Matrix.head_cons,
        Matrix.cons_val_two, Matrix.tail_cons]
      ring
  funext i
  exact h i

theorem cross3_zero_left (v : Point3) : cross3 0 v = 0 := by
  have h : ∀ i : Fin 3, cross3 0 v i = 0 := by
    intro i
    match i with
    | 0 | 1 | 2 => simp [cross3]
  funext i
  exact h i

/-- Matrix with the three given vectors as columns. -/
noncomputable def colMat (u v w : Point3) : Matrix (Fin 3) (Fin 3) ℝ :=
  Matrix.of fun i j => if j = 0 then u i else if j = 1 then v i else w i

theorem colMat_det_cross (u v : Point3) :
    (colMat u v (cross3 u v)).det = dot3 (cross3 u v) (cross3 u v) := by
  simp [colMat, Matrix.det_fin_three, dot3, cross3]
  ring

theorem mulVec_fixes_colMat {Q : Matrix (Fin 3) (Fin 3) ℝ} {u v w : Point3}
    (hu : Q.mulVec u = u) (hv : Q.mulVec v = v) (hw : Q.mulVec w = w) :
    Q * colMat u v w = colMat u v w := by
  ext i j
  have hcol : ∀ x : Point3, Q.mulVec x = x →
      Finset.univ.sum (fun k : Fin 3 => Q i k * x k) = x i := by
    intro x hx
    have := congrFun hx i
    simpa [Matrix.mulVec, Matrix.dotProduct] using this
  match j with
  | 0 => simpa [Matrix.mul_apply, colMat] using hcol u hu
  | 1 => simpa [Matrix.mul_apply, colMat] using hcol v hv
  | 2 => simpa [Matrix.mul_apply, colMat] using hcol w hw

theorem mulVec_fixes_eq_one {Q : Matrix (Fin 3) (Fin 3) ℝ} {u v w : Point3}
    (hdet : (colMat u v w).det ≠ 0) (hu : Q.mulVec u = u) (hv : Q.mulVec v = v)
    (hw : Q.mulVec w = w) : Q = 1 := by
  have hunit : IsUnit (colMat u v w).det := isUnit_iff_ne_zero.mpr hdet
  have hinv := Matrix.mul_nonsing_inv (colMat u v w) hunit
  calc Q = Q * (colMat u v w * (colMat u v w)⁻¹) := by rw [hinv, mul_one]
    _ = Q * colMat u v w * (colMat u v w)⁻¹ := by rw [mul_assoc]
    _ = colMat u v w * (colMat u v w)⁻¹ := by rw [mulVec_fixes_colMat hu hv hw]
    _ = 1 := hinv

theorem properRotation_fixes_two {Q : Matrix (Fin 3) (Fin 3) ℝ} {u v : Point3}
    (hQ : properRotation Q) (hcross : cross3 u v ≠ 0)
    (hu : Q.mulVec u = u) (hv : Q.mulVec v = v) : Q = 1 := by
  have hQQt : Q * Q.transpose = 1 := Matrix.mul_eq_one_comm.mp hQ.1
  have hw : Q.mulVec (cross3 u v) = cross3 u v := by
    have hid := cross3_transpose_mulVec Q u v
    rw [hu, hv, hQ.2, one_smul] at hid
    calc Q.mulVec (cross3 u v) = Q.mulVec (Q.transpose.mulVec (cross3 u v)) := by
          rw [hid]
      _ = (Q * Q.transpose).mulVec (cross3 u v) := Matrix.mulVec_mulVec _ _ _
      _ = cross3 u v := by rw [hQQt, Matrix.one_mulVec]
  have hdet : (colMat u v (cross3 u v)).det ≠ 0 := by
    rw [colMat_det_cross]
    intro h0
    exact hcross (dot3_self_eq_zero h0)
  exact mulVec_fixes_eq_one hdet hu hv hw

theorem properRotation_one : properRotation (1 : Matrix (Fin 3) (Fin 3) ℝ) := by
  constructor
  · rw [Matrix.transpose_one, one_mul]
  · exact Matrix.det_one

theorem similarityObjective_nonneg (definedPts recordedPts : List Point3)
    (R : Matrix (Fin 3) (Fin 3) ℝ) (s : ℝ) (t : Point3) :
    0 ≤ similarityObjective definedPts recordedPts R s t := by
  apply Finset.sum_nonneg
  intro i _
  exact dot3_self_nonneg _

theorem similarityObjective_exact_zero (definedPts recordedPts : List Point3)
    (R0 : Matrix (Fin 3) (Fin 3) ℝ) (s0 : ℝ) (t0 : Point3)
    (hdata : ∀ i < recordedPts.length,
      recordedPts.getD i 0 = s0 • R0.mulVec (definedPts.getD i 0) + t0) :
    similarityObjective definedPts recordedPts R0 s0 t0 = 0 := by
  apply Finset.sum_eq_zero
  intro i hi
  rw [hdata i (Finset.mem_range.mp hi)]
  have h : s0 • R0.mulVec (definedPts.getD i 0) + t0 -
      (s0 • R0.mulVec (definedPts.getD i 0) + t0) = 0 := sub_self _
  rw [h]
  simp [dot3]

theorem similarityObjective_zero_pointwise {definedPts recordedPts : List Point3}
    {R : Matrix (Fin 3) (Fin 3) ℝ} {s : ℝ} {t : Point3}
    (hobj : similarityObjective definedPts recordedPts R s t = 0) :
    ∀ i < recordedPts.length,
      s • R.mulVec (definedPts.getD i 0) + t = recordedPts.getD i 0 := by
  intro i hi
  have hterm := (Finset.sum_eq_zero_iff_of_nonneg
    (fun j _ => dot3_self_nonneg
      (s • R.mulVec (definedPts.getD j 0) + t - recordedPts.getD j 0))).mp hobj i
    (Finset.mem_range.mpr hi)
  have hzero := dot3_self_eq_zero hterm
  exact sub_eq_zero.mp hzero

theorem optimal_similarity_unique (definedPts recordedPts : List Point3)
    (R0 : Matrix (Fin 3) (Fin 3) ℝ) (s0 : ℝ) (t0 : Point3) (i0 i1 i2 : ℕ)
    (hi0 : i0 < recordedPts.length) (hi1 : i1 < recordedPts.length)
    (hi2 : i2 < recordedPts.length)
    (hR0 : properRotation R0) (hs0 : 0 < s0)
    (hdata : ∀ i < recordedPts.length,
      recordedPts.getD i 0 = s0 • R0.mulVec (definedPts.getD i 0) + t0)
    (hcross : cross3 (definedPts.getD i1 0 - definedPts.getD i0 0)
      (definedPts.getD i2 0 - definedPts.getD i0 0) ≠ 0)
    (R : Matrix (Fin 3) (Fin 3) ℝ) (s : ℝ) (t : Point3)
    (hopt : IsOptimalSimilarity definedPts recordedPts R s t) :
    R = R0 ∧ s = s0 ∧ t = t0 := by
  obtain ⟨hR, hs, hmin⟩ := hopt
  have hzero0 := similarityObjective_exact_zero definedPts recordedPts R0 s0 t0 hdata
  have hle := hmin R0 s0 t0 hR0 hs0
  rw [hzero0] at hle
  have hobj : similarityObjective definedPts recordedPts R s t = 0 :=
    le_antisymm hle (similarityObjective_nonneg definedPts recordedPts R s t)
  have hpt := similarityObjective_zero_pointwise hobj
  have heq : ∀ i < recordedPts.length,
      s • R.mulVec (definedPts.getD i 0) + t =
        s0 • R0.mulVec (definedPts.getD i 0) + t0 := by
    intro i hi
    rw [hpt i hi, hdata i hi]
  set u := definedPts.getD i1 0 - definedPts.getD i0 0 with hu_def
  set v := definedPts.getD i2 0 - definedPts.getD i0 0 with hv_def
  have hdiff : ∀ j : ℕ, j < recordedPts.length →
      s • R.mulVec (definedPts.getD j 0 - definedPts.getD i0 0) =
        s0 • R0.mulVec (definedPts.getD j 0 - definedPts.getD i0 0) := by
    intro j hj
    have hj' := heq j hj
    have hi' := heq i0 hi0
    rw [Matrix.mulVec_sub, Matrix.mulVec_sub, smul_sub, smul_sub]
    have := congrArg₂ (· - ·) hj' hi'
    simpa [add_sub_add_right_eq_sub] using this
  have hAu : s • R.mulVec u = s0 • R0.mulVec u := hdiff i1 hi1
  have hAv : s • R.mulVec v = s0 • R0.mulVec v := hdiff i2 hi2
  have hune : u ≠ 0 := by
    intro h0
    apply hcross
    rw [h0]
    exact cross3_zero_left v
  have hdot_ne : dot3 u u ≠ 0 := fun h => hune (dot3_self_eq_zero h)
  have hss : s * s * dot3 u u = s0 * s0 * dot3 u u := by
    have h1 := congrArg₂ dot3 hAu hAu
    rw [dot3_smul_smul, dot3_smul_smul, rotation_dot3 R hR.1,
      rotation_dot3 R0 hR0.1] at h1
    exact h1
  have hs_eq : s = s0 := by
    have h2 : s * s = s0 * s0 := mul_right_cancel₀ hdot_ne hss
    have h3 : (s - s0) * (s + s0) = 0 := by linear_combination h2
    rcases mul_eq_zero.mp h3 with h4 | h4
    · linarith
    · linarith
  have hs_ne : s0 ≠ 0 := ne_of_gt hs0
  have hRu : R.mulVec u = R0.mulVec u := by
    rw [hs_eq] at hAu
    exact smul_right_injective (Fin 3 → ℝ) hs_ne hAu
  have hRv : R.mulVec v = R0.mulVec v := by
    rw [hs_eq] at hAv
    exact smul_right_injective (Fin 3 → ℝ) hs_ne hAv
  have hR0R0t : R0 * R0.transpose = 1 := Matrix.mul_eq_one_comm.mp hR0.1
  have hQ : properRotation (R0.transpose * R) := by
    constructor
    · rw [Matrix.transpose_mul, Matrix.transpose_transpose]
      calc R.transpose * R0 * (R0.transpose * R)
          = R.transpose * (R0 * R0.transpose) * R := by
            rw [mul_assoc, mul_assoc, mul_assoc]
        _ = R.transpose * R := by rw [hR0R0t, mul_one]
        _ = 1 := hR.1
    · rw [Matrix.det_mul, Matrix.det_transpose, hR0.2, hR.2, one_mul]
  have hfix : ∀ x : Point3, R.mulVec x = R0.mulVec x →
      (R0.transpose * R).mulVec x = x := by
    intro x hx
    rw [← Matrix.mulVec_mulVec, hx, Matrix.mulVec_mulVec, hR0.1, Matrix.one_mulVec]
  have hQ1 : R0.transpose * R = 1 :=
    properRotation_fixes_two hQ hcross (hfix u hRu) (hfix v hRv)
  have hR_eq : R = R0 := by
    calc R = (R0 * R0.transpose) * R := by rw [hR0R0t, one_mul]
      _ = R0 * (R0.transpose * R) := by rw [mul_assoc]
      _ = R0 := by rw [hQ1, mul_one]
  have ht_eq : t = t0 := by
    have h0 := heq i0 hi0
    rw [hs_eq, hR_eq] at h0
    exact add_left_cancel h0
  exact ⟨hR_eq, hs_eq, ht_eq⟩

theorem applyTransform_assemble (R : Matrix (Fin 3) (Fin 3) ℝ) (s : ℝ)
    (t p : Point3) :
    applyTransform (assembleTransform R s t) p = s • R.mulVec p + t := by
  funext j
  match j with
  | 0 | 1 | 2 =>
    simp [applyTransform, assembleTransform, homogeneize, Fin.sum_univ_four,
      Matrix.mulVec, Matrix.dotProduct, Fin.sum_univ_three]
    ring

theorem dist3_self (p : Point3) : dist3 p p = 0 := by
  have h : distance2BetweenPoints p p = 0 := by
    simp [distance2BetweenPoints]
  rw [dist3, h, Real.sqrt_zero]

theorem getD_map_range {n i : ℕ} (h : i < n) (f : ℕ → Point3) :
    ((List.range n).map f).getD i 0 = f i := by
  have hlen : i < ((List.range n).map f).length := by simp [h]
  rw [List.getD_eq_getElem _ _ hlen]
  simp

theorem computeErrorRun_exact (M : Matrix (Fin 4) (Fin 4) ℝ)
    (definedPts recordedPts : List Point3)
    (hfit : ∀ i < recordedPts.length,
      applyTransform M (definedPts.getD i 0) = recordedPts.getD i 0) :
    computeErrorRun M definedPts recordedPts = (0, PlusStatus.success) := by
  have hsum : (Finset.sum (Finset.range recordedPts.length) fun i =>
      dist3 (applyTransform M (definedPts.getD i 0)) (recordedPts.getD i 0)) = 0 := by
    apply Finset.sum_eq_zero
    intro i hi
    rw [hfit i (Finset.mem_range.mp hi)]
    exact dist3_self _
  rw [computeErrorRun]
  simp only [hsum, zero_div]

theorem itkSolve_exact (definedPts recordedPts : List Point3)
    (R0 : Matrix (Fin 3) (Fin 3) ℝ) (s0 : ℝ) (t0 : Point3) (i0 i1 i2 : ℕ)
    (hi0 : i0 < recordedPts.length) (hi1 : i1 < recordedPts.length)
    (hi2 : i2 < recordedPts.length)
    (hR0 : properRotation R0) (hs0 : 0 < s0)
    (hdata : ∀ i < recordedPts.length,
      recordedPts.getD i 0 = s0 • R0.mulVec (definedPts.getD i 0) + t0)
    (hcross : cross3 (definedPts.getD i1 0 - definedPts.getD i0 0)
      (definedPts.getD i2 0 - definedPts.getD i0 0) ≠ 0) :
    itkSolve definedPts recordedPts = (R0, s0, t0) := by
  have hopt0 : IsOptimalSimilarity definedPts recordedPts R0 s0 t0 := by
    refine ⟨hR0, hs0, ?_⟩
    intro R' s' t' _ _
    rw [similarityObjective_exact_zero definedPts recordedPts R0 s0 t0 hdata]
    exact similarityObjective_nonneg definedPts recordedPts R' s' t'
  have hex : ∃ p : Matrix (Fin 3) (Fin 3) ℝ × ℝ × Point3,
      IsOptimalSimilarity definedPts recordedPts p.1 p.2.1 p.2.2 :=
    ⟨(R0, s0, t0), hopt0⟩
  have hchoose := hex.choose_spec
  obtain ⟨hR_eq, hs_eq, ht_eq⟩ := optimal_similarity_unique definedPts recordedPts
    R0 s0 t0 i0 i1 i2 hi0 hi1 hi2 hR0 hs0 hdata hcross
    hex.choose.1 hex.choose.2.1 hex.choose.2.2 hchoose
  rw [itkSolve, dif_pos hex]
  exact Prod.ext hR_eq (Prod.ext hs_eq ht_eq)

theorem register_unfold (st : PhantomRegistrationAlgo) :
    register st =
      ({ st with
          phantomToReferenceTransformMatrix := registerMatrix st,
          registrationError := (computeErrorRun (registerMatrix st)
            st.definedLandmarks st.recordedLandmarks).1 },
        PlusStatus.success) := rfl

/-- C1: for every correspondence set of at least 3 points with equal counts in
which `recorded[i] = s0 • R0 * defined[i] + t0` exactly for a proper rotation
`R0`, positive scale `s0` and translation `t0`, and whose defined points are
not collinear (witnessed by three indices with a nonzero cross product — the
degenerate configurations are the ones the spec itself excludes), `Register`
publishes exactly the homogeneous transform assembled from `(R0, s0, t0)`,
publishes registration error `0`, and returns `PLUS_SUCCESS`.  Tolerances in
the claim become exact equalities in the real-number model. -/
theorem register_recovers_exact_similarity (st : PhantomRegistrationAlgo)
    (R0 : Matrix (Fin 3) (Fin 3) ℝ) (s0 : ℝ) (t0 : Point3) (i0 i1 i2 : ℕ)
    (hcount : 3 ≤ st.recordedLandmarks.length)
    (hlen : st.definedLandmarks.length = st.recordedLandmarks.length)
    (hR0 : properRotation R0) (hs0 : 0 < s0)
    (hdata : ∀ i < st.recordedLandmarks.length,
      st.recordedLandmarks.getD i 0 =
        s0 • R0.mulVec (st.definedLandmarks.getD i 0) + t0)
    (hi0 : i0 < st.recordedLandmarks.length)
    (hi1 : i1 < st.recordedLandmarks.length)
    (hi2 : i2 < st.recordedLandmarks.length)
    (hcross : cross3 (st.definedLandmarks.getD i1 0 - st.definedLandmarks.getD i0 0)
      (st.definedLandmarks.getD i2 0 - st.definedLandmarks.getD i0 0) ≠ 0) :
    (register st).1.phantomToReferenceTransformMatrix = assembleTransform R0 s0 t0 ∧
      (register st).1.registrationError = 0 ∧
      (register st).2 = PlusStatus.success := by
  have hmvlen : (registerMovingPoints st).length = st.recordedLandmarks.length := by
    simp [registerMovingPoints]
  have hfx : ∀ i < st.recordedLandmarks.length,
      (registerFixedPoints st).getD i 0 = st.definedLandmarks.getD i 0 := by
    intro i hi
    exact getD_map_range hi _
  have hmv : ∀ i < st.recordedLandmarks.length,
      (registerMovingPoints st).getD i 0 = st.recordedLandmarks.getD i 0 := by
    intro i hi
    exact getD_map_range hi _
  have hdata' : ∀ i < (registerMovingPoints st).length,
      (registerMovingPoints st).getD i 0 =
        s0 • R0.mulVec ((registerFixedPoints st).getD i 0) + t0 := by
    intro i hi
    rw [hmvlen] at hi
    rw [hmv i hi, hfx i hi]
    exact hdata i hi
  have hcross' : cross3 ((registerFixedPoints st).getD i1 0 -
      (registerFixedPoints st).getD i0 0)
      ((registerFixedPoints st).getD i2 0 - (registerFixedPoints st).getD i0 0) ≠ 0 := by
    rw [hfx i0 hi0, hfx i1 hi1, hfx i2 hi2]
    exact hcross
  have hsolve : itkSolve (registerFixedPoints st) (registerMovingPoints st) =
      (R0, s0, t0) :=
    itkSolve_exact (registerFixedPoints st) (registerMovingPoints st) R0 s0 t0
      i0 i1 i2 (hmvlen ▸ hi0) (hmvlen ▸ hi1) (hmvlen ▸ hi2) hR0 hs0 hdata' hcross'
  have hM : registerMatrix st = assembleTransform R0 s0 t0 := by
    rw [registerMatrix, hsolve]
  have herr : computeErrorRun (assembleTransform R0 s0 t0)
      st.definedLandmarks st.recordedLandmarks = (0, PlusStatus.success) := by
    apply computeErrorRun_exact
    intro i hi
    rw [applyTransform_assemble]
    exact (hdata i hi).symm
  rw [register_unfold st]
  refine ⟨hM, ?_, rfl⟩
  simp only [hM, herr]

/-- Witness for C1: the spec's own scenario — defined points
`{(0,0,0),(1,0,0),(0,1,0)}`, recorded points identical — yields the identity
similarity (`R = I`, `s = 1`, `t = 0`) and error `0`. -/
theorem register_recovers_exact_similarity_witness :
    (register (PhantomRegistrationAlgo.mk (-1) 1
        [![0, 0, 0], ![1, 0, 0], ![0, 1, 0]]
        [![0, 0, 0], ![1, 0, 0], ![0, 1, 0]] [])).1.phantomToReferenceTransformMatrix
        = assembleTransform 1 1 0 ∧
      (register (PhantomRegistrationAlgo.mk (-1) 1
        [![0, 0, 0], ![1, 0, 0], ![0, 1, 0]]
        [![0, 0, 0], ![1, 0, 0], ![0, 1, 0]] [])).1.registrationError = 0 ∧
      (register (PhantomRegistrationAlgo.mk (-1) 1
        [![0, 0, 0], ![1, 0, 0], ![0, 1, 0]]
        [![0, 0, 0], ![1, 0, 0], ![0, 1, 0]] [])).2 = PlusStatus.success := by
  apply register_recovers_exact_similarity _ 1 1 0 0 1 2
  · norm_num
  · rfl
  · exact properRotation_one
  · exact one_pos
  · intro i hi
    simp [Matrix.one_mulVec]
  · norm_num
  · norm_num
  · norm_num
  · intro h
    have h2 := congrFun h 2
    norm_num [cross3, List.getD_cons_zero, List.getD_cons_succ, Pi.sub_apply] at h2

theorem det_pm_one_of_orthogonal {U : Matrix (Fin 3) (Fin 3) ℝ}
    (hU : U.transpose * U = 1) : U.det = 1 ∨ U.det = -1 := by
  have h : U.det * U.det = 1 := by
    have h2 := congrArg Matrix.det hU
    rwa [Matrix.det_mul, Matrix.det_transpose, Matrix.det_one] at h2
  exact mul_self_eq_one_iff.mp h

theorem flipThirdColumn_det (U : Matrix (Fin 3) (Fin 3) ℝ) :
    (flipThirdColumn U).det = -U.det := by
  simp [flipThirdColumn, Matrix.det_fin_three]
  ring

/-- C3: the rotation part of the transform produced by the registration solve
is always a proper rotation.  First, every output of the (spec-modelled)
least-squares solve satisfies `det R = 1`.  Second — the contentful,
reflection-correction half, spec step 4 — for arbitrary orthogonal SVD factors
`U`, `V` of the cross-covariance (so deliberately mirrored inputs, where
`det(V Uᵀ) = -1`, are included), the corrected candidate rotation always has
determinant exactly `+1`, never `-1`. -/
theorem rotation_determinant_plus_one :
    (∀ definedPts recordedPts : List Point3,
      ((itkSolve definedPts recordedPts).1).det = 1) ∧
    ∀ U V : Matrix (Fin 3) (Fin 3) ℝ,
      U.transpose * U = 1 → V.transpose * V = 1 →
        (umeyamaRotation U V).det = 1 := by
  constructor
  · intro definedPts recordedPts
    rw [itkSolve]
    by_cases h : ∃ p : Matrix (Fin 3) (Fin 3) ℝ × ℝ × Point3,
        IsOptimalSimilarity definedPts recordedPts p.1 p.2.1 p.2.2
    · rw [dif_pos h]
      exact h.choose_spec.1.2
    · rw [dif_neg h]
      exact Matrix.det_one
  · intro U V hU hV
    have hdU := det_pm_one_of_orthogonal hU
    have hdV := det_pm_one_of_orthogonal hV
    have hprod : (V * U.transpose).det = V.det * U.det := by
      rw [Matrix.det_mul, Matrix.det_transpose]
    have hflip : (V * (flipThirdColumn U).transpose).det = V.det * -U.det := by
      rw [Matrix.det_mul, Matrix.det_transpose, flipThirdColumn_det]
    rw [umeyamaRotation]
    by_cases hc : (V * U.transpose).det < 0
    · rw [if_pos hc, hflip]
      rcases hdU with h1 | h1 <;> rcases hdV with h2 | h2
      · rw [hprod, h1, h2] at hc; norm_num at hc
      · rw [h1, h2]; norm_num
      · rw [h1, h2]; norm_num
      · rw [hprod, h1, h2] at hc; norm_num at hc
    · rw [if_neg hc, hprod]
      rcases hdU with h1 | h1 <;> rcases hdV with h2 | h2
      · rw [h1, h2]; norm_num
      · rw [hprod, h1, h2] at hc; norm_num at hc
      · rw [hprod, h1, h2] at hc; norm_num at hc
      · rw [h1, h2]; norm_num

/-- Witness for C3: the reflection-correction result evaluated at concrete
orthogonal factors. -/
theorem rotation_determinant_plus_one_witness :
    (umeyamaRotation 1 1).det = 1 :=
  rotation_determinant_plus_one.2 1 1 (by simp) (by simp)

theorem dist3_eq_euclidean (p q : Point3) :
    dist3 p q = dist (pointToEuclidean p) (pointToEuclidean q) := by
  rw [dist3, EuclideanSpace.dist_eq, distance2BetweenPoints]
  congr 1
  rw [Fin.sum_univ_three]
  simp [pointToEuclidean, Real.dist_eq, sq_abs]

theorem applyTransform_one (p : Point3) : applyTransform 1 p = p := by
  funext j
  match j with
  | 0 | 1 | 2 =>
    simp [applyTransform, homogeneize, Fin.sum_univ_four, Matrix.one_apply]

theorem dist3_origin_axis (a : ℝ) (ha : 0 ≤ a) :
    dist3 ![0, 0, 0] ![a, 0, 0] = a := by
  have h : distance2BetweenPoints ![0, 0, 0] ![a, 0, 0] = a ^ 2 := by
    simp [distance2BetweenPoints]
  rw [dist3, h, Real.sqrt_sq ha]

/-- C2: `ComputeError` stores the arithmetic mean of the per-point Euclidean
distances (Mathlib's distance on `EuclideanSpace ℝ (Fin 3)`) between the
transformed defined landmarks and the recorded landmarks — and this value is
not the root-mean-square of those distances: a concrete two-point set
separates the two aggregations (mean `7` against RMS `√50`). -/
theorem computeError_is_mean_not_rms :
    (∀ (M : Matrix (Fin 4) (Fin 4) ℝ) (definedPts recordedPts : List Point3),
      1 ≤ recordedPts.length →
        computeErrorValue M definedPts recordedPts =
          meanEuclideanError M definedPts recordedPts) ∧
      computeErrorValue 1 [![0, 0, 0], ![0, 0, 0]] [![6, 0, 0], ![8, 0, 0]] ≠
        rmsEuclideanError 1 [![0, 0, 0], ![0, 0, 0]] [![6, 0, 0], ![8, 0, 0]] := by
  have hmean : ∀ (M : Matrix (Fin 4) (Fin 4) ℝ) (definedPts recordedPts : List Point3),
      computeErrorValue M definedPts recordedPts =
        meanEuclideanError M definedPts recordedPts := by
    intro M definedPts recordedPts
    have h1 : computeErrorValue M definedPts recordedPts =
        (Finset.sum (Finset.range recordedPts.length) fun i =>
          dist3 (applyTransform M (definedPts.getD i 0)) (recordedPts.getD i 0)) /
          recordedPts.length := rfl
    rw [h1, meanEuclideanError]
    congr 1
    apply Finset.sum_congr rfl
    intro i _
    exact dist3_eq_euclidean _ _
  have h6 : dist3 ![(0 : ℝ), 0, 0] ![6, 0, 0] = 6 := dist3_origin_axis 6 (by norm_num)
  have h8 : dist3 ![(0 : ℝ), 0, 0] ![8, 0, 0] = 8 := dist3_origin_axis 8 (by norm_num)
  have hval : computeErrorValue 1 [![0, 0, 0], ![0, 0, 0]] [![6, 0, 0], ![8, 0, 0]] = 7 := by
    rw [computeErrorValue, computeErrorRun]
    simp only [List.length_cons, List.length_nil, Finset.sum_range_succ,
      Finset.sum_range_zero, List.getD_cons_zero, List.getD_cons_succ,
      applyTransform_one]
    rw [h6, h8]
    norm_num
  have hrms : rmsEuclideanError 1 [![0, 0, 0], ![0, 0, 0]] [![6, 0, 0], ![8, 0, 0]] =
      Real.sqrt 50 := by
    rw [rmsEuclideanError]
    simp only [List.length_cons, List.length_nil, Finset.sum_range_succ,
      Finset.sum_range_zero, List.getD_cons_zero, List.getD_cons_succ,
      applyTransform_one, ← dist3_eq_euclidean]
    rw [h6, h8]
    norm_num
  refine ⟨fun M d r _ => hmean M d r, ?_⟩
  rw [hval, hrms]
  intro h
  have h2 : (7 : ℝ) ^ 2 = Real.sqrt 50 ^ 2 := by rw [h]
  rw [Real.sq_sqrt (by norm_num : (0 : ℝ) ≤ 50)] at h2
  norm_num at h2

/-- Witness for C2: the mean-distance identity applied at a concrete one-point
set, where the stored error evaluates to the single Euclidean distance `6`. -/
theorem computeError_is_mean_not_rms_witness :
    computeErrorValue 1 [![0, 0, 0]] [![6, 0, 0]] =
      meanEuclideanError 1 [![0, 0, 0]] [![6, 0, 0]] ∧
    computeErrorValue 1 [![0, 0, 0]] [![6, 0, 0]] = 6 := by
  constructor
  · exact computeError_is_mean_not_rms.1 1 _ _ (by norm_num)
  · rw [computeErrorValue, computeErrorRun]
    simp only [List.length_cons, List.length_nil, Finset.sum_range_succ,
      Finset.sum_range_zero, List.getD_cons_zero, applyTransform_one]
    rw [dist3_origin_axis 6 (by norm_num)]
    norm_num

theorem register_status_success (st : PhantomRegistrationAlgo) :
    (register st).2 = PlusStatus.success := by
  rw [register_unfold]

/-- Counterexample for C4: on a two-point correspondence set `Register`
returns `PLUS_SUCCESS`, not an `InsufficientLandmarks` failure (no such error
kind exists in the code, and no count check is performed). -/
theorem register_two_landmarks_no_failure :
    (register (PhantomRegistrationAlgo.mk (-1) 1
        [![0, 0, 0], ![1, 0, 0]] [![0, 0, 0], ![1, 0, 0]] [])).2
      = PlusStatus.success ∧
    (PhantomRegistrationAlgo.mk (-1) 1
        [![0, 0, 0], ![1, 0, 0]] [![0, 0, 0], ![1, 0, 0]]
        ([] : List String)).recordedLandmarks.length < 3 := by
  constructor
  · exact register_status_success _
  · norm_num

/-- C4 (amended): `Register` performs no minimum-landmark-count validation —
on every state with fewer than 3 recorded correspondences it still computes
and publishes the transform and returns `PLUS_SUCCESS`. -/
theorem register_insufficient_landmarks_still_succeeds
    (st : PhantomRegistrationAlgo) (h : st.recordedLandmarks.length < 3) :
    (register st).2 = PlusStatus.success ∧
      (register st).1.phantomToReferenceTransformMatrix = registerMatrix st := by
  rw [register_unfold]
  exact ⟨rfl, rfl⟩

/-- Witness for the amended C4: the empty correspondence set. -/
theorem register_insufficient_landmarks_still_succeeds_witness :
    (register (PhantomRegistrationAlgo.mk (-1) 1 [] [] [])).2 = PlusStatus.success ∧
      (register (PhantomRegistrationAlgo.mk (-1) 1 [] [] [])).1.phantomToReferenceTransformMatrix
        = registerMatrix (PhantomRegistrationAlgo.mk (-1) 1 [] [] []) :=
  register_insufficient_landmarks_still_succeeds _ (by norm_num)

/-- Counterexample for C5: with four defined landmarks and three recorded
landmarks (mismatched counts) `Register` returns `PLUS_SUCCESS`; no
`MismatchedCorrespondenceCount` failure exists in the code, which never
compares the two counts. -/
theorem register_mismatched_counts_no_failure :
    (register (PhantomRegistrationAlgo.mk (-1) 1
        [![0, 0, 0], ![1, 0, 0], ![0, 1, 0], ![0, 0, 1]]
        [![0, 0, 0], ![1, 0, 0], ![0, 1, 0]] [])).2 = PlusStatus.success ∧
    (PhantomRegistrationAlgo.mk (-1) 1
        [![0, 0, 0], ![1, 0, 0], ![0, 1, 0], ![0, 0, 1]]
        [![0, 0, 0], ![1, 0, 0], ![0, 1, 0]]
        ([] : List String)).definedLandmarks.length ≠
      (PhantomRegistrationAlgo.mk (-1) 1
        [![0, 0, 0], ![1, 0, 0], ![0, 1, 0], ![0, 0, 1]]
        [![0, 0, 0], ![1, 0, 0], ![0, 1, 0]]
        ([] : List String)).recordedLandmarks.length := by
  constructor
  · exact register_status_success _
  · norm_num

/-- C5 (amended): `Register` never compares the defined and recorded counts —
on every state with mismatched counts it proceeds (using the defined
landmarks read at the recorded indices) and returns `PLUS_SUCCESS`. -/
theorem register_mismatched_counts_still_succeeds
    (st : PhantomRegistrationAlgo)
    (h : st.definedLandmarks.length ≠ st.recordedLandmarks.length) :
    (register st).2 = PlusStatus.success := register_status_success st

/-- Witness for the amended C5. -/
theorem register_mismatched_counts_still_succeeds_witness :
    (register (PhantomRegistrationAlgo.mk (-1) 1 [![0, 0, 0]] [] [])).2
      = PlusStatus.success :=
  register_mismatched_counts_still_succeeds _ (by norm_num)

theorem cross3_eq_zero_of_axis (u v : Point3) (hu1 : u 1 = 0) (hu2 : u 2 = 0)
    (hv1 : v 1 = 0) (hv2 : v 2 = 0) : cross3 u v = 0 := by
  have h : ∀ i : Fin 3, cross3 u v i = 0 := by
    intro i
    match i with
    | 0 | 1 | 2 => simp [cross3, hu1, hu2, hv1, hv2]
  funext i
  exact h i

theorem collinearState_collinear : definedCollinear collinearState := by
  have hax : ∀ m : ℕ, m < collinearState.definedLandmarks.length →
      (collinearState.definedLandmarks.getD m 0) 1 = 1 ∧
      (collinearState.definedLandmarks.getD m 0) 2 = 0 := by
    intro m hm
    match m with
    | 0 => exact ⟨by norm_num [collinearState], by norm_num [collinearState]⟩
    | 1 => exact ⟨by norm_num [collinearState], by norm_num [collinearState]⟩
    | 2 => exact ⟨by norm_num [collinearState], by norm_num [collinearState]⟩
    | (n + 3) =>
      have h3 : collinearState.definedLandmarks.length = 3 := rfl
      rw [h3] at hm
      omega
  intro i j k hi hj hk
  apply cross3_eq_zero_of_axis
  · rw [Pi.sub_apply, (hax j hj).1, (hax i hi).1, sub_self]
  · rw [Pi.sub_apply, (hax j hj).2, (hax i hi).2, sub_zero]
  · rw [Pi.sub_apply, (hax k hk).1, (hax i hi).1, sub_self]
  · rw [Pi.sub_apply, (hax k hk).2, (hax i hi).2, sub_zero]

/-- Counterexample for C6: on a correspondence set of 3 points whose defined
landmarks are collinear (all on the line `y = 1, z = 0`), `Register` returns
`PLUS_SUCCESS`; no `DegenerateGeometry` failure exists in the code, which
performs no collinearity check. -/
theorem register_collinear_no_failure :
    (register collinearState).2 = PlusStatus.success ∧
      definedCollinear collinearState ∧
      3 ≤ collinearState.recordedLandmarks.length := by
  refine ⟨register_status_success _, collinearState_collinear, ?_⟩
  norm_num [collinearState]

/-- C6 (amended): `Register` performs no degeneracy check — on every state
whose defined landmarks are collinear (with 3 or more correspondences) it
still returns `PLUS_SUCCESS` rather than a `DegenerateGeometry` failure. -/
theorem register_collinear_still_succeeds (st : PhantomRegistrationAlgo)
    (hcol : definedCollinear st) (h3 : 3 ≤ st.recordedLandmarks.length) :
    (register st).2 = PlusStatus.success := register_status_success st

/-- Witness for the amended C6: the collinear three-point state. -/
theorem register_collinear_still_succeeds_witness :
    (register collinearState).2 = PlusStatus.success :=
  register_collinear_still_succeeds collinearState collinearState_collinear
    (by norm_num [collinearState])

/-- Counterexample for C7: invoked on a correspondence set with zero
correspondences, `ComputeError` performs the division (yielding `0/0` — NaN
in the C++ doubles, `0` in the real-valued model) and returns `PLUS_SUCCESS`;
no `EmptyCorrespondenceSet` failure exists in the code. -/
theorem computeError_empty_reports_success :
    computeErrorRun 1 ([] : List Point3) ([] : List Point3) =
      ((0 : ℝ) / (0 : ℕ), PlusStatus.success) ∧
    ([] : List Point3).length = 0 := by
  constructor
  · rw [computeErrorRun]
    norm_num
  · rfl

/-- C7 (amended): `ComputeError` has no emptiness guard and no failure path
at all — for every transform and every pair of landmark lists, the empty set
included, it performs the division by `count(recorded)` and returns
`PLUS_SUCCESS`. -/
theorem computeError_never_fails (M : Matrix (Fin 4) (Fin 4) ℝ)
    (definedPts recordedPts : List Point3) :
    (computeErrorRun M definedPts recordedPts).2 = PlusStatus.success := rfl

theorem insertPoint_length_ge (pts : List Point3) (i : ℕ) (p : Point3) :
    pts.length ≤ (insertPoint pts i p).length := by
  rw [insertPoint]
  split
  · rw [List.length_set]
  · simp only [List.length_append, List.length_replicate, List.length_cons,
      List.length_nil]
    omega

theorem insertPoint_length_pos (pts : List Point3) (i : ℕ) (p : Point3) :
    1 ≤ (insertPoint pts i p).length := by
  rw [insertPoint]
  split
  · rw [List.length_set]
    omega
  · simp only [List.length_append, List.length_replicate, List.length_cons,
      List.length_nil]
    omega

theorem processLandmarksAux_length_ge (entries : List LandmarkEntry) :
    ∀ (i : ℕ) (pts : List Point3),
      pts.length ≤ (processLandmarksAux i entries pts).length := by
  induction entries with
  | nil => intro i pts; rw [processLandmarksAux]
  | cons e rest ih =>
    intro i pts
    cases e with
    | valid name p =>
      calc pts.length ≤ (insertPoint pts i p).length := insertPoint_length_ge pts i p
        _ ≤ _ := ih (i + 1) (insertPoint pts i p)
    | invalidElement => exact ih (i + 1) pts
    | invalidPosition s => exact ih (i + 1) pts

theorem processLandmarksAux_no_valid {entries : List LandmarkEntry}
    (h : ∀ e ∈ entries, e.isValid = false) :
    ∀ (i : ℕ) (pts : List Point3), processLandmarksAux i entries pts = pts := by
  induction entries with
  | nil => intro i pts; rw [processLandmarksAux]
  | cons e rest ih =>
    intro i pts
    cases e with
    | valid name p =>
      have := h _ (List.mem_cons_self _ _)
      simp [LandmarkEntry.isValid] at this
    | invalidElement =>
      exact ih (fun e he => h e (List.mem_cons_of_mem _ he)) (i + 1) pts
    | invalidPosition s =>
      exact ih (fun e he => h e (List.mem_cons_of_mem _ he)) (i + 1) pts

theorem processLandmarksAux_valid_pos {entries : List LandmarkEntry}
    (h : ∃ e ∈ entries, e.isValid = true) :
    ∀ (i : ℕ) (pts : List Point3),
      1 ≤ (processLandmarksAux i entries pts).length := by
  induction entries with
  | nil =>
    obtain ⟨e, he, _⟩ := h
    exact absurd he (List.not_mem_nil e)
  | cons e rest ih =>
    intro i pts
    cases e with
    | valid name p =>
      calc 1 ≤ (insertPoint pts i p).length := insertPoint_length_pos pts i p
        _ ≤ _ := processLandmarksAux_length_ge rest (i + 1) (insertPoint pts i p)
    | invalidElement =>
      obtain ⟨e', he', hv⟩ := h
      rcases List.mem_cons.mp he' with rfl | hmem
      · simp [LandmarkEntry.isValid] at hv
      · exact ih ⟨e', hmem, hv⟩ (i + 1) pts
    | invalidPosition s =>
      obtain ⟨e', he', hv⟩ := h
      rcases List.mem_cons.mp he' with rfl | hmem
      · simp [LandmarkEntry.isValid] at hv
      · exact ih ⟨e', hmem, hv⟩ (i + 1) pts

/-- C9 (amended): during landmark collection, a malformed entry is skipped
(prepending one never changes whether collection succeeds), and — given the
surrounding configuration elements are present — collection succeeds if and
only if at least ONE valid entry remains.  The `>= 3` threshold of the claim
is not enforced anywhere in `ReadConfiguration`: the code only fails when
zero valid landmarks were inserted. -/
theorem readLandmarks_success_iff :
    (∀ entries : List LandmarkEntry,
      readLandmarksStatus entries = PlusStatus.success ↔
        1 ≤ validEntryCount entries) ∧
    ∀ (e : LandmarkEntry) (entries : List LandmarkEntry), e.isValid = false →
      (readLandmarksStatus (e :: entries) = PlusStatus.success ↔
        readLandmarksStatus entries = PlusStatus.success) := by
  have hmain : ∀ entries : List LandmarkEntry,
      readLandmarksStatus entries = PlusStatus.success ↔
        1 ≤ validEntryCount entries := by
    intro entries
    rw [readLandmarksStatus]
    constructor
    · intro h
      by_contra hnot
      have hcnt : (entries.filter fun e => e.isValid).length = 0 := by
        rw [validEntryCount] at hnot
        omega
      have hall : ∀ e ∈ entries, e.isValid = false := by
        intro e he
        have hnil := List.length_eq_zero.mp hcnt
        have := List.filter_eq_nil_iff.mp hnil e he
        revert this
        cases e.isValid <;> simp
      have hnil2 : processLandmarks entries = [] := by
        rw [processLandmarks]
        exact processLandmarksAux_no_valid hall 0 []
      rw [hnil2] at h
      simp at h
    · intro h
      have hex : ∃ e ∈ entries, e.isValid = true := by
        have hne : entries.filter (fun e => e.isValid) ≠ [] := by
          intro h0
          rw [validEntryCount, h0] at h
          simp at h
        obtain ⟨e, he⟩ := List.exists_mem_of_ne_nil _ hne
        exact ⟨e, (List.mem_filter.mp he).1, (List.mem_filter.mp he).2⟩
      have hpos : 1 ≤ (processLandmarks entries).length := by
        rw [processLandmarks]
        exact processLandmarksAux_valid_pos hex 0 []
      rw [if_neg (by omega)]
  refine ⟨hmain, fun e entries hinv => ?_⟩
  rw [hmain, hmain]
  have hcount : validEntryCount (e :: entries) = validEntryCount entries := by
    rw [validEntryCount, validEntryCount, List.filter_cons]
    rw [hinv]
    simp
  rw [hcount]

/-- Witness for the amended C9: a singleton list with one malformed and one
valid entry collects successfully, and prepending the malformed entry did not
change the outcome. -/
theorem readLandmarks_success_iff_witness :
    readLandmarksStatus [LandmarkEntry.invalidElement,
        LandmarkEntry.valid "Base" ![0, 0, 0]] = PlusStatus.success ↔
      readLandmarksStatus [LandmarkEntry.valid "Base" ![0, 0, 0]] =
        PlusStatus.success :=
  readLandmarks_success_iff.2 LandmarkEntry.invalidElement
    [LandmarkEntry.valid "Base" ![0, 0, 0]] rfl

/-- Counterexample for C9: a single valid entry (fewer than 3) already makes
collection succeed — `ReadConfiguration` only fails when NO valid landmark
remains, so "succeeds iff at least 3 valid entries remain" is false. -/
theorem readLandmarks_one_valid_succeeds :
    readLandmarksStatus [LandmarkEntry.valid "Origin" ![0, 0, 0]] =
      PlusStatus.success ∧
    validEntryCount [LandmarkEntry.valid "Origin" ![0, 0, 0]] = 1 := by
  constructor
  · rfl
  · rfl

/-- C10: both `Register` and `ComputeError` read `DefinedLandmarks` exactly at
the indices `0 .. count(recorded)-1` with no size check on the defined list:
(1) every such read is in bounds precisely when
`count(recorded) <= count(defined)`; (2) whenever the defined list is shorter
than the recorded list, the read at index `count(defined)` is performed yet
out of range; (3) `ComputeError`'s result depends on the defined landmarks
only through the reads at those indices. -/
theorem defined_reads_bounds_characterization :
    (∀ st : PhantomRegistrationAlgo,
      definedReadsInBounds st ↔
        st.recordedLandmarks.length ≤ st.definedLandmarks.length) ∧
    (∀ st : PhantomRegistrationAlgo,
      st.definedLandmarks.length < st.recordedLandmarks.length →
        st.definedLandmarks.length ∈ registerReadIndices st ∧
          st.definedLandmarks.length ∈ computeErrorReadIndices st ∧
          ¬ st.definedLandmarks.length < st.definedLandmarks.length) ∧
    ∀ (st : PhantomRegistrationAlgo) (M : Matrix (Fin 4) (Fin 4) ℝ)
      (definedPts' : List Point3),
      (∀ i ∈ computeErrorReadIndices st,
        st.definedLandmarks.getD i 0 = definedPts'.getD i 0) →
        computeErrorRun M st.definedLandmarks st.recordedLandmarks =
          computeErrorRun M definedPts' st.recordedLandmarks := by
  refine ⟨?_, ?_, ?_⟩
  · intro st
    constructor
    · intro h
      by_contra hlt
      push_neg at hlt
      have hmem : st.definedLandmarks.length ∈ registerReadIndices st := by
        rw [registerReadIndices, List.mem_range]
        omega
      have := h.1 st.definedLandmarks.length hmem
      omega
    · intro h
      constructor <;> intro i hi
      · rw [registerReadIndices, List.mem_range] at hi
        omega
      · rw [computeErrorReadIndices, List.mem_range] at hi
        omega
  · intro st h
    refine ⟨?_, ?_, ?_⟩
    · rw [registerReadIndices, List.mem_range]
      omega
    · rw [computeErrorReadIndices, List.mem_range]
      omega
    · omega
  · intro st M definedPts' h
    rw [computeErrorRun, computeErrorRun]
    have hsum : (Finset.sum (Finset.range st.recordedLandmarks.length) fun i =>
        dist3 (applyTransform M (st.definedLandmarks.getD i 0))
          (st.recordedLandmarks.getD i 0)) =
        Finset.sum (Finset.range st.recordedLandmarks.length) fun i =>
          dist3 (applyTransform M (definedPts'.getD i 0))
            (st.recordedLandmarks.getD i 0) := by
      apply Finset.sum_congr rfl
      intro i hi
      rw [h i (by
        rw [computeErrorReadIndices]
        exact List.mem_range.mpr (Finset.mem_range.mp hi))]
    exact congrArg
      (fun x : ℝ => (x / (st.recordedLandmarks.length : ℝ), PlusStatus.success)) hsum

/-- Witness for C10: with one defined and two recorded landmarks, the read at
index 1 is performed by both loops and is out of the defined list's range. -/
theorem defined_reads_bounds_characterization_witness :
    (PhantomRegistrationAlgo.mk (-1) 1 [![0, 0, 0]]
        [![0, 0, 0], ![1, 0, 0]] []).definedLandmarks.length ∈
      registerReadIndices (PhantomRegistrationAlgo.mk (-1) 1 [![0, 0, 0]]
        [![0, 0, 0], ![1, 0, 0]] []) ∧
    (PhantomRegistrationAlgo.mk (-1) 1 [![0, 0, 0]]
        [![0, 0, 0], ![1, 0, 0]] []).definedLandmarks.length ∈
      computeErrorReadIndices (PhantomRegistrationAlgo.mk (-1) 1 [![0, 0, 0]]
        [![0, 0, 0], ![1, 0, 0]] []) ∧
    ¬ (PhantomRegistrationAlgo.mk (-1) 1 [![0, 0, 0]]
        [![0, 0, 0], ![1, 0, 0]] []).definedLandmarks.length <
      (PhantomRegistrationAlgo.mk (-1) 1 [![0, 0, 0]]
        [![0, 0, 0], ![1, 0, 0]] []).definedLandmarks.length :=
  defined_reads_bounds_characterization.2.1
    (PhantomRegistrationAlgo.mk (-1) 1 [![0, 0, 0]]
      [![0, 0, 0], ![1, 0, 0]] []) (by norm_num)
